import Mathlib

/-!
Shallow embedding of the threshold-estimation core of
`src/Assets/PythonScripts/psychophysical_analysis.py`.

Stimulus intensities, proportions and thresholds are modelled as rationals
(`ℚ`); the Python floats carry exact decimal values in all code paths the
claims touch.  Transcendental library calls (`np.exp`, `np.log`,
`scipy.stats.norm.cdf/ppf`) and the black-box optimizer `scipy.curve_fit`
are abstracted as function parameters bundled in `NumericBackend`: every
result below holds for an arbitrary backend, hence in particular for the
real numeric routines.  The Python `np.nan` sentinel is modelled as `none`
of an `Option`.  The parallel numpy arrays `x_data` / `y_data` / `n_trials`
are bundled as a list of `PerformanceLevel` records (the spec's data model);
`x_data` is recovered as `levels.map` of the intensity projection, and so on.
-/

namespace VR2AFC

/-- One aggregated stimulus level: intensity, proportion correct and the
number of trials at that exact intensity (spec `PerformanceLevel`, the
entries of `x_data`, `y_data`, `n_trials` in the source). -/
structure PerformanceLevel where
  intensity : ℚ
  proportion_correct : ℚ
  trial_count : ℕ
  deriving DecidableEq, Inhabited

/-- The trials whose stimulus intensity equals `x`
(the numpy mask `cmpPx_values == cmpPx`). -/
def trialsAt (trials : List (ℚ × Bool)) (x : ℚ) : List (ℚ × Bool) :=
  trials.filter (fun t => decide (t.1 = x))

/-- Source `trials_at_level = np.sum(mask)`. -/
def countAt (trials : List (ℚ × Bool)) (x : ℚ) : ℕ :=
  (trialsAt trials x).length

/-- Source `correct_at_level = np.sum(correct_responses[mask])`. -/
def correctAt (trials : List (ℚ × Bool)) (x : ℚ) : ℕ :=
  ((trialsAt trials x).filter (fun t => t.2)).length

/-- Source `unique_cmpPx = np.sort(np.unique(cmpPx_values))`: the distinct stimulus
intensities in ascending order (`np.unique` keeps one copy of each value
and returns them sorted). -/
def uniqueSorted (trials : List (ℚ × Bool)) : List ℚ :=
  ((trials.map Prod.fst).dedup).insertionSort (· ≤ ·)

/-- The aggregation loop inlined in `fit_psychophysical_curve`
(lines 143-156): keep levels with at least 2 trials, proportion correct =
correct count / trial count. -/
def aggregate_fit (trials : List (ℚ × Bool)) : List PerformanceLevel :=
  ((uniqueSorted trials).filter (fun x => decide (2 ≤ countAt trials x))).map
    (fun x =>
      { intensity := x
        proportion_correct := (correctAt trials x : ℚ) / (countAt trials x : ℚ)
        trial_count := countAt trials x })

/-- The aggregation loop inlined in `simple_threshold_estimate`
(lines 252-265); textually identical to the one in
`fit_psychophysical_curve`. -/
def aggregate_simple (trials : List (ℚ × Bool)) : List PerformanceLevel :=
  ((uniqueSorted trials).filter (fun x => decide (2 ≤ countAt trials x))).map
    (fun x =>
      { intensity := x
        proportion_correct := (correctAt trials x : ℚ) / (countAt trials x : ℚ)
        trial_count := countAt trials x })

/-- Model of `np.min` over a list, as in `np.min(x_data)` (lists are nonempty at
every use site; the default 0 is never read there). -/
def npMin (l : List ℚ) : ℚ := l.min?.getD 0

/-- Model of `np.max` over a list. -/
def npMax (l : List ℚ) : ℚ := l.max?.getD 0

/-- Indexing `x_data[i]` / `y_data[i]`: the aggregated level at index `i`. -/
def levelD (levels : List PerformanceLevel) (i : ℕ) : PerformanceLevel :=
  levels.getD i default

/-- The interpolation branch of `simple_threshold_estimate`
(lines 270-299): partition levels below / at-or-above the target, either
extrapolate past the data range or linearly interpolate around the first
at-or-above-target level. -/
def interpolate_threshold (levels : List PerformanceLevel)
    (target_performance : ℚ) : ℚ :=
  let xs := levels.map (·.intensity)
  if (!(levels.any fun l => decide (l.proportion_correct < target_performance)))
      || (!(levels.any fun l => decide (target_performance ≤ l.proportion_correct))) then
    if levels.all fun l => decide (target_performance ≤ l.proportion_correct) then
      npMin xs - npMin xs * (1 / 10)
    else
      npMax xs + npMax xs * (1 / 10)
  else
    let transition_idx :=
      levels.findIdx fun l => decide (target_performance ≤ l.proportion_correct)
    if transition_idx = 0 then
      (levelD levels 0).intensity
    else
      let x1 := (levelD levels (transition_idx - 1)).intensity
      let y1 := (levelD levels (transition_idx - 1)).proportion_correct
      let x2 := (levelD levels transition_idx).intensity
      let y2 := (levelD levels transition_idx).proportion_correct
      if y2 ≠ y1 then
        x1 + (target_performance - y1) * (x2 - x1) / (y2 - y1)
      else
        (x1 + x2) / 2

/-- Source `simple_threshold_estimate` (lines 239-301): aggregate, return the NaN
sentinel (`none`) below 3 levels, otherwise interpolate. -/
def simple_threshold_estimate (trials : List (ℚ × Bool))
    (target_performance : ℚ) : Option ℚ :=
  let levels := aggregate_simple trials
  if levels.length < 3 then none
  else some (interpolate_threshold levels target_performance)

/-- Levels used for concrete checks of the interpolation branch. -/
def wLevels : List PerformanceLevel :=
  [⟨1, 0, 2⟩, ⟨2, 1, 2⟩, ⟨3, 1, 2⟩]

/-- Projection `x_data` of an aggregated level sequence. -/
def x_data (levels : List PerformanceLevel) : List ℚ :=
  levels.map (·.intensity)

/-- Projection `y_data` of an aggregated level sequence. -/
def y_data (levels : List PerformanceLevel) : List ℚ :=
  levels.map (·.proportion_correct)

/-- The black-box numeric collaborators of the fitting path: `np.exp`,
`np.log`, `scipy.stats.norm.cdf` / `.ppf` (argument order: value, mu,
sigma; for `ppf`: quantile, mu, sigma), and `scipy.optimize.curve_fit` for
each model (returning `none` when the optimizer throws).  All theorems
about the fitting path hold for an arbitrary backend. -/
structure NumericBackend where
  npExp : ℚ → ℚ
  npLog : ℚ → ℚ
  normCdf : ℚ → ℚ → ℚ → ℚ
  normPpf : ℚ → ℚ → ℚ → ℚ
  curveFitLogistic : List PerformanceLevel → Option (ℚ × ℚ × ℚ × ℚ)
  curveFitNormal : List PerformanceLevel → Option (ℚ × ℚ)

/-- Source `logistic_function` (lines 106-115):
`a + (d - a) / (1 + np.exp(-b * (x - c)))`. -/
def logistic_function (npExp : ℚ → ℚ) (x a b c d : ℚ) : ℚ :=
  a + (d - a) / (1 + npExp (-b * (x - c)))

/-- Source `cumulative_normal` (lines 117-124): `norm.cdf(x, mu, sigma)`. -/
def cumulative_normal (normCdf : ℚ → ℚ → ℚ → ℚ) (x mu sigma : ℚ) : ℚ :=
  normCdf x mu sigma

/-- Model of `np.mean` of a list. -/
def npMean (l : List ℚ) : ℚ := l.sum / (l.length : ℚ)

/-- The R-squared computation of `fit_psychophysical_curve`
(lines 196-200 and 224-228): `1 - ss_res / ss_tot` when `ss_tot > 0`,
else 0. -/
def r_squared_of (ys ypred : List ℚ) : ℚ :=
  if 0 < ((ys.map (fun y => (y - npMean ys) ^ 2)).sum : ℚ) then
    1 - ((ys.zip ypred).map (fun p => (p.1 - p.2) ^ 2)).sum
      / (ys.map (fun y => (y - npMean ys) ^ 2)).sum
  else 0

/-- The threshold-derivation block of the logistic branch (lines 202-212):
invert the logistic analytically when `a < 0.707 < d` and `b > 0`, and
discard (NaN, modelled `none`) a threshold outside
`[np.min(x_data), np.max(x_data)]`; otherwise NaN. -/
def logistic_threshold_707 (npLog : ℚ → ℚ) (a b c d xmin xmax : ℚ) :
    Option ℚ :=
  if a < 707 / 1000 ∧ 707 / 1000 < d ∧ 0 < b then
    if c - npLog ((d - a) / (707 / 1000 - a) - 1) / b < xmin ∨
        xmax < c - npLog ((d - a) / (707 / 1000 - a) - 1) / b then none
    else some (c - npLog ((d - a) / (707 / 1000 - a) - 1) / b)
  else none

/-- The two model selectors of the source (`method` strings). -/
inductive Method where
  | logistic
  | cumulative_normal
  deriving DecidableEq

/-- The fitted parameters: `popt` of the chosen model. -/
inductive FitParams where
  | logisticP (a b c d : ℚ)
  | normalP (mu sigma : ℚ)
  deriving DecidableEq

/-- The non-`None` return value of `fit_psychophysical_curve`:
`(popt, r_squared, threshold_707, x_data, y_data, n_trials)` with the
three parallel arrays bundled as `levels` (`pcov` is a further opaque
optimizer output, not modelled). -/
structure FitResult where
  params : FitParams
  r_squared : ℚ
  threshold_707 : Option ℚ
  levels : List PerformanceLevel

/-- Source `fit_psychophysical_curve` (lines 126-237): insufficient-data guards
before any optimizer call, then the model branch; an optimizer exception
(`none` from the backend) yields the all-`None` failure return. -/
def fit_psychophysical_curve (trials : List (ℚ × Bool)) (method : Method)
    (nb : NumericBackend) : Option FitResult :=
  if (uniqueSorted trials).length < 4 then none
  else if (aggregate_fit trials).length < 4 then none
  else
    match method with
    | .logistic =>
      match nb.curveFitLogistic (aggregate_fit trials) with
      | none => none
      | some (a, b, c, d) =>
        some { params := .logisticP a b c d
               r_squared := r_squared_of (y_data (aggregate_fit trials))
                 ((x_data (aggregate_fit trials)).map
                   (fun x => logistic_function nb.npExp x a b c d))
               threshold_707 := logistic_threshold_707 nb.npLog a b c d
                 (npMin (x_data (aggregate_fit trials)))
                 (npMax (x_data (aggregate_fit trials)))
               levels := aggregate_fit trials }
    | .cumulative_normal =>
      match nb.curveFitNormal (aggregate_fit trials) with
      | none => none
      | some (mu, sigma) =>
        some { params := .normalP mu sigma
               r_squared := r_squared_of (y_data (aggregate_fit trials))
                 ((x_data (aggregate_fit trials)).map
                   (fun x => cumulative_normal nb.normCdf x mu sigma))
               threshold_707 := some (nb.normPpf (707 / 1000) mu sigma)
               levels := aggregate_fit trials }

/-- A backend whose optimizer always fails and whose transcendental
functions are constantly zero; used for concrete checks. -/
def failBackend : NumericBackend :=
  { npExp := fun _ => 0
    npLog := fun _ => 0
    normCdf := fun _ _ _ => 0
    normPpf := fun _ _ _ => 0
    curveFitLogistic := fun _ => none
    curveFitNormal := fun _ => none }

/-- Trials with only 3 distinct intensities. -/
def c6Trials : List (ℚ × Bool) :=
  [(1, true), (1, true), (2, true), (2, true), (3, true), (3, true)]

/-- Trials producing 4 aggregated levels, all with proportion correct 1. -/
def wTrials4 : List (ℚ × Bool) :=
  [(1, true), (1, true), (2, true), (2, true), (3, true), (3, true),
   (4, true), (4, true)]

/-- The aggregation of `wTrials4`. -/
def wLevels4 : List PerformanceLevel :=
  [⟨1, 1, 2⟩, ⟨2, 1, 2⟩, ⟨3, 1, 2⟩, ⟨4, 1, 2⟩]

/-- A backend whose logistic optimizer returns `(1/2, 1, 2, 9/10)` and
whose transcendental functions are constantly zero. -/
def logBackend : NumericBackend :=
  { npExp := fun _ => 0
    npLog := fun _ => 0
    normCdf := fun _ _ _ => 0
    normPpf := fun _ _ _ => 0
    curveFitLogistic := fun _ => some (1 / 2, 1, 2, 9 / 10)
    curveFitNormal := fun _ => none }

/-- The fit record produced on `wTrials4` by `logBackend`. -/
def wResLog : FitResult :=
  { params := .logisticP (1 / 2) 1 2 (9 / 10)
    r_squared := 0
    threshold_707 := some 2
    levels := wLevels4 }

/-- A backend whose cumulative-normal optimizer returns `(0, 1)` and whose
`ppf` is constantly `10000`. -/
def normBackend : NumericBackend :=
  { npExp := fun _ => 0
    npLog := fun _ => 0
    normCdf := fun _ _ _ => 0
    normPpf := fun _ _ _ => 10000
    curveFitLogistic := fun _ => none
    curveFitNormal := fun _ => some (0, 1) }

/-- The fit record produced on `wTrials4` by `normBackend`. -/
def wResNorm : FitResult :=
  { params := .normalP 0 1
    r_squared := 0
    threshold_707 := some 10000
    levels := wLevels4 }

/-- One loaded session: filename, parsed timestamp (kept opaque) and the
per-trial `(cmpPx, correct)` records. -/
structure SessionData where
  filename : String
  session_datetime : String
  trials : List (ℚ × Bool)

/-- The per-session descriptive record appended to `session_info`
(lines 316-321). -/
structure SessionInfo where
  filename : String
  session_datetime : String
  trials : ℕ
  accuracy : ℚ
  deriving DecidableEq

/-- Entry `session_info.append(...)` for one session. -/
def session_info_of (s : SessionData) : SessionInfo :=
  { filename := s.filename
    session_datetime := s.session_datetime
    trials := s.trials.length
    accuracy := ((s.trials.filter (fun t => t.2)).length : ℚ)
      / (s.trials.length : ℚ) }

/-- Merged `all_cmpPx` / `all_correct`: the merged trial list of a dataset
(lines 307-324). -/
def all_trials (sessions : List SessionData) : List (ℚ × Bool) :=
  (sessions.map (·.trials)).flatten

/-- The result dictionary of `analyze_dataset` (lines 353-384). -/
structure AnalysisResult where
  dataset : String
  n_trials : ℕ
  overall_accuracy : ℚ
  stimulus_range : ℚ × ℚ
  simple_threshold : Option ℚ
  fit_params : Option FitParams
  r_squared : Option ℚ
  threshold_707 : Option ℚ
  levels : List PerformanceLevel
  session_info : List SessionInfo
  method : Method

/-- Source `analyze_dataset` (lines 303-384): merge the sessions, always compute
the interpolated threshold, attempt the fit, and package one result
record; on fit failure the fit fields are absent (`none`) and the level
arrays are those of `simple_threshold_estimate`. -/
def analyze_dataset (dataset_name : String) (sessions : List SessionData)
    (method : Method) (nb : NumericBackend) : AnalysisResult :=
  match fit_psychophysical_curve (all_trials sessions) method nb with
  | some r =>
    { dataset := dataset_name
      n_trials := (all_trials sessions).length
      overall_accuracy := (((all_trials sessions).filter (fun t => t.2)).length : ℚ)
        / ((all_trials sessions).length : ℚ)
      stimulus_range := (npMin ((all_trials sessions).map Prod.fst),
        npMax ((all_trials sessions).map Prod.fst))
      simple_threshold := simple_threshold_estimate (all_trials sessions) (707 / 1000)
      fit_params := some r.params
      r_squared := some r.r_squared
      threshold_707 := r.threshold_707
      levels := r.levels
      session_info := sessions.map session_info_of
      method := method }
  | none =>
    { dataset := dataset_name
      n_trials := (all_trials sessions).length
      overall_accuracy := (((all_trials sessions).filter (fun t => t.2)).length : ℚ)
        / ((all_trials sessions).length : ℚ)
      stimulus_range := (npMin ((all_trials sessions).map Prod.fst),
        npMax ((all_trials sessions).map Prod.fst))
      simple_threshold := simple_threshold_estimate (all_trials sessions) (707 / 1000)
      fit_params := none
      r_squared := none
      threshold_707 := none
      levels := aggregate_simple (all_trials sessions)
      session_info := sessions.map session_info_of
      method := method }

/-- Dataset name used in concrete checks. -/
def c7Name : String := "bricks004"

/-- A single session with two trials at one intensity. -/
def c7Sessions : List SessionData :=
  [{ filename := "2AFC_P_20251020_003915.csv"
     session_datetime := "2025-10-20 00:39:15"
     trials := [(5, true), (5, false)] }]

/-- Trials whose minimum intensity is 0, all correct. -/
def c3Trials : List (ℚ × Bool) :=
  [(0, true), (0, true), (1, true), (1, true), (2, true), (2, true)]

/-- The level set of the spec's interpolation scenario:
`[(400,0.5,10), (450,0.6,10), (500,0.75,10), (550,0.9,10), (600,0.95,10)]`. -/
def c4Levels : List PerformanceLevel :=
  [⟨400, 1 / 2, 10⟩, ⟨450, 3 / 5, 10⟩, ⟨500, 3 / 4, 10⟩,
   ⟨550, 9 / 10, 10⟩, ⟨600, 19 / 20, 10⟩]

/-- The distinct intensities are strictly ascending. -/
theorem uniqueSorted_pairwise (trials : List (ℚ × Bool)) :
    (uniqueSorted trials).Pairwise (· < ·) := by
  have hs : (uniqueSorted trials).Sorted (· ≤ ·) := List.sorted_insertionSort _ _
  have hnd : (uniqueSorted trials).Nodup :=
    (List.perm_insertionSort (· ≤ ·)
      ((trials.map Prod.fst).dedup)).symm.nodup
      ((trials.map Prod.fst).nodup_dedup)
  exact (hs.and hnd).imp fun h => lt_of_le_of_ne h.1 h.2

/-- Claim C10: the two inlined aggregation blocks of
`fit_psychophysical_curve` and `simple_threshold_estimate` compute equal
aggregated sequences on every pair of input arrays. -/
theorem aggregate_fit_eq_aggregate_simple (trials : List (ℚ × Bool)) :
    aggregate_fit trials = aggregate_simple trials := rfl

/-- Claim C5: aggregation emits levels in strictly ascending intensity
order (hence no two levels share an intensity), every emitted level has at
least 2 trials, and each level's proportion correct is the correct count
divided by the trial count over exactly the trials at that intensity. -/
theorem aggregate_invariants (trials : List (ℚ × Bool)) :
    (aggregate_simple trials).Pairwise (fun a b => a.intensity < b.intensity) ∧
    (aggregate_simple trials).Pairwise (fun a b => a.intensity ≠ b.intensity) ∧
    (∀ l ∈ aggregate_simple trials, 2 ≤ l.trial_count) ∧
    (∀ l ∈ aggregate_simple trials,
      l.trial_count = countAt trials l.intensity ∧
      l.proportion_correct
        = (correctAt trials l.intensity : ℚ) / (countAt trials l.intensity : ℚ)) := by
  have hfilter :
      ((uniqueSorted trials).filter
        (fun x => decide (2 ≤ countAt trials x))).Pairwise (· < ·) :=
    (uniqueSorted_pairwise trials).sublist (List.filter_sublist _)
  have hpair :
      (aggregate_simple trials).Pairwise (fun a b => a.intensity < b.intensity) := by
    unfold aggregate_simple
    rw [List.pairwise_map]
    exact hfilter
  refine ⟨hpair, hpair.imp (fun h => ne_of_lt h), ?_, ?_⟩
  · intro l hl
    unfold aggregate_simple at hl
    rcases List.mem_map.1 hl with ⟨x, hx, rfl⟩
    rcases List.mem_filter.1 hx with ⟨-, hx2⟩
    exact of_decide_eq_true hx2
  · intro l hl
    unfold aggregate_simple at hl
    rcases List.mem_map.1 hl with ⟨x, _, rfl⟩
    exact ⟨rfl, rfl⟩

/-- When some level is at or above target, the transition index is in
bounds. -/
theorem transition_idx_lt_length (levels : List PerformanceLevel) (t : ℚ)
    (h2 : ∃ l ∈ levels, t ≤ l.proportion_correct) :
    (levels.findIdx fun l => decide (t ≤ l.proportion_correct)) < levels.length := by
  apply List.findIdx_lt_length_of_exists
  rcases h2 with ⟨l, hl, hle⟩
  exact ⟨l, hl, decide_eq_true hle⟩

/-- The level at the transition index is at or above target. -/
theorem levelD_transition_ge (levels : List PerformanceLevel) (t : ℚ) (i : ℕ)
    (hi : i = levels.findIdx fun l => decide (t ≤ l.proportion_correct))
    (hlen : i < levels.length) :
    t ≤ (levelD levels i).proportion_correct := by
  subst hi
  have h := @List.findIdx_getElem PerformanceLevel
    (fun l => decide (t ≤ l.proportion_correct)) levels hlen
  rw [levelD, List.getD_eq_getElem?_getD, List.getElem?_eq_getElem hlen]
  exact of_decide_eq_true h

/-- Every level before the transition index is strictly below target. -/
theorem levelD_before_transition_lt (levels : List PerformanceLevel) (t : ℚ)
    (j : ℕ) (hj : j < levels.findIdx fun l => decide (t ≤ l.proportion_correct))
    (hlen : j < levels.length) :
    (levelD levels j).proportion_correct < t := by
  have h := @List.not_of_lt_findIdx PerformanceLevel
    (fun l => decide (t ≤ l.proportion_correct)) levels j hj
  rw [levelD, List.getD_eq_getElem?_getD, List.getElem?_eq_getElem hlen]
  exact lt_of_not_le (of_decide_eq_false h)

/-- Evaluation of the interpolation branch when both sides of the target
are populated and the transition level is not the first level: the
predecessor is strictly below target, the transition level at or above it,
and the result is the linear-interpolation formula (the flat-segment
midpoint fallback is not taken). -/
theorem interp_eval (levels : List PerformanceLevel) (t : ℚ) (i : ℕ)
    (hi : i = levels.findIdx fun l => decide (t ≤ l.proportion_correct))
    (h1 : ∃ l ∈ levels, l.proportion_correct < t)
    (h2 : ∃ l ∈ levels, t ≤ l.proportion_correct)
    (hne0 : i ≠ 0) :
    (levelD levels (i - 1)).proportion_correct < t ∧
    t ≤ (levelD levels i).proportion_correct ∧
    interpolate_threshold levels t =
      (levelD levels (i - 1)).intensity +
        (t - (levelD levels (i - 1)).proportion_correct) *
          ((levelD levels i).intensity - (levelD levels (i - 1)).intensity) /
          ((levelD levels i).proportion_correct
            - (levelD levels (i - 1)).proportion_correct) := by
  have hb1 : (levels.any fun l => decide (l.proportion_correct < t)) = true := by
    rcases h1 with ⟨l, hl, hlt⟩
    exact List.any_eq_true.2 ⟨l, hl, decide_eq_true hlt⟩
  have hb2 : (levels.any fun l => decide (t ≤ l.proportion_correct)) = true := by
    rcases h2 with ⟨l, hl, hle⟩
    exact List.any_eq_true.2 ⟨l, hl, decide_eq_true hle⟩
  have hlen : i < levels.length := by
    rw [hi]; exact transition_idx_lt_length levels t h2
  have hpredlt : i - 1 < i := Nat.sub_lt (Nat.pos_of_ne_zero hne0) Nat.one_pos
  have hy2 : t ≤ (levelD levels i).proportion_correct :=
    levelD_transition_ge levels t i hi hlen
  have hy1 : (levelD levels (i - 1)).proportion_correct < t :=
    levelD_before_transition_lt levels t (i - 1) (hi ▸ hpredlt) (lt_trans hpredlt hlen)
  have hne : (levelD levels i).proportion_correct
      ≠ (levelD levels (i - 1)).proportion_correct :=
    ne_of_gt (lt_of_lt_of_le hy1 hy2)
  refine ⟨hy1, hy2, ?_⟩
  unfold interpolate_threshold
  rw [← hi]
  simp only [hb1, hb2, Bool.not_true, Bool.or_self, Bool.false_eq_true, if_false]
  rw [if_neg hne0, if_pos hne]

/-- Evaluation of the interpolation branch when both sides of the target
are populated and the transition level is the very first level. -/
theorem interp_eval_zero (levels : List PerformanceLevel) (t : ℚ)
    (h1 : ∃ l ∈ levels, l.proportion_correct < t)
    (h2 : ∃ l ∈ levels, t ≤ l.proportion_correct)
    (hti : (levels.findIdx fun l => decide (t ≤ l.proportion_correct)) = 0) :
    interpolate_threshold levels t = (levelD levels 0).intensity := by
  have hb1 : (levels.any fun l => decide (l.proportion_correct < t)) = true := by
    rcases h1 with ⟨l, hl, hlt⟩
    exact List.any_eq_true.2 ⟨l, hl, decide_eq_true hlt⟩
  have hb2 : (levels.any fun l => decide (t ≤ l.proportion_correct)) = true := by
    rcases h2 with ⟨l, hl, hle⟩
    exact List.any_eq_true.2 ⟨l, hl, decide_eq_true hle⟩
  unfold interpolate_threshold
  simp only [hb1, hb2, Bool.not_true, Bool.or_self, Bool.false_eq_true, if_false]
  rw [if_pos hti]

/-- In-bounds `levelD` agrees with `List.get`. -/
theorem levelD_eq_get (levels : List PerformanceLevel) (i : ℕ)
    (h : i < levels.length) : levelD levels i = levels.get ⟨i, h⟩ := by
  rw [levelD, List.getD_eq_getElem?_getD, List.getElem?_eq_getElem h]
  rfl

/-- Linear interpolation between a bracketing pair stays inside the
bracket. -/
theorem bracket_arith (x1 x2 y1 y2 t : ℚ) (hy1 : y1 < t) (hy2 : t ≤ y2)
    (hx : x1 < x2) :
    x1 ≤ x1 + (t - y1) * (x2 - x1) / (y2 - y1) ∧
    x1 + (t - y1) * (x2 - x1) / (y2 - y1) ≤ x2 := by
  have hypos : 0 < y2 - y1 := by linarith
  constructor
  · have hnum : 0 ≤ (t - y1) * (x2 - x1) :=
      mul_nonneg (by linarith) (by linarith)
    have hdiv : 0 ≤ (t - y1) * (x2 - x1) / (y2 - y1) :=
      div_nonneg hnum (le_of_lt hypos)
    linarith
  · have hstep : (t - y1) * (x2 - x1) ≤ (y2 - y1) * (x2 - x1) :=
      mul_le_mul_of_nonneg_right (by linarith) (by linarith)
    have hdiv : (t - y1) * (x2 - x1) / (y2 - y1) ≤ x2 - x1 := by
      rw [div_le_iff₀ hypos]
      calc (t - y1) * (x2 - x1) ≤ (y2 - y1) * (x2 - x1) := hstep
        _ = (x2 - x1) * (y2 - y1) := mul_comm _ _
    linarith

/-- Claim C1: on a level sequence in ascending intensity order with at
least one level strictly below the target and at least one at or above it,
the interpolation step returns the first level's intensity when the first
at-or-above-target level is first overall, and otherwise a value between
the intensity of that level's immediate predecessor and its own intensity,
inclusive. -/
theorem interpolate_threshold_bracketed (levels : List PerformanceLevel)
    (t : ℚ) (i : ℕ)
    (hi : i = levels.findIdx fun l => decide (t ≤ l.proportion_correct))
    (hsorted : levels.Pairwise (fun a b => a.intensity < b.intensity))
    (h1 : ∃ l ∈ levels, l.proportion_correct < t)
    (h2 : ∃ l ∈ levels, t ≤ l.proportion_correct) :
    (i = 0 → interpolate_threshold levels t = (levelD levels 0).intensity) ∧
    (i ≠ 0 →
      (levelD levels (i - 1)).intensity ≤ interpolate_threshold levels t ∧
      interpolate_threshold levels t ≤ (levelD levels i).intensity) := by
  constructor
  · intro h0
    exact interp_eval_zero levels t h1 h2 (hi.symm.trans h0)
  · intro hne0
    obtain ⟨hy1, hy2, heq⟩ := interp_eval levels t i hi h1 h2 hne0
    have hlen : i < levels.length := by
      rw [hi]; exact transition_idx_lt_length levels t h2
    have hpredlt : i - 1 < i := Nat.sub_lt (Nat.pos_of_ne_zero hne0) Nat.one_pos
    have hpredlen : i - 1 < levels.length := lt_trans hpredlt hlen
    have hx : (levelD levels (i - 1)).intensity < (levelD levels i).intensity := by
      rw [levelD_eq_get levels (i - 1) hpredlen, levelD_eq_get levels i hlen]
      exact List.pairwise_iff_get.1 hsorted ⟨i - 1, hpredlen⟩ ⟨i, hlen⟩ hpredlt
    have hb := bracket_arith (levelD levels (i - 1)).intensity
      (levelD levels i).intensity (levelD levels (i - 1)).proportion_correct
      (levelD levels i).proportion_correct t hy1 hy2 hx
    rw [heq]
    exact hb

/-- Concrete instance of claim C1 on a 3-level set whose transition level
is the second level. -/
theorem interpolate_threshold_bracketed_witness :
    (1 : ℚ) ≤ interpolate_threshold wLevels (707 / 1000) ∧
    interpolate_threshold wLevels (707 / 1000) ≤ 2 := by
  have h := interpolate_threshold_bracketed wLevels (707 / 1000) 1
    (by norm_num [wLevels, List.findIdx_cons])
    (by norm_num [wLevels, List.pairwise_cons])
    (by norm_num [wLevels]) (by norm_num [wLevels])
  exact h.2 (by norm_num)

/-- Claim C9: whenever the linear-interpolation formula is reached (some
level strictly below target, some at or above, transition level not first),
the predecessor is strictly below the target and the transition level at
or above it, so the divisor is strictly positive and the flat-segment
midpoint fallback is unreachable: the result is exactly the interpolation
formula. -/
theorem interpolation_divisor_pos (levels : List PerformanceLevel)
    (t : ℚ) (i : ℕ)
    (hi : i = levels.findIdx fun l => decide (t ≤ l.proportion_correct))
    (h1 : ∃ l ∈ levels, l.proportion_correct < t)
    (h2 : ∃ l ∈ levels, t ≤ l.proportion_correct)
    (hne0 : i ≠ 0) :
    (levelD levels (i - 1)).proportion_correct < t ∧
    t ≤ (levelD levels i).proportion_correct ∧
    0 < (levelD levels i).proportion_correct
        - (levelD levels (i - 1)).proportion_correct ∧
    interpolate_threshold levels t =
      (levelD levels (i - 1)).intensity +
        (t - (levelD levels (i - 1)).proportion_correct) *
          ((levelD levels i).intensity - (levelD levels (i - 1)).intensity) /
          ((levelD levels i).proportion_correct
            - (levelD levels (i - 1)).proportion_correct) := by
  obtain ⟨hy1, hy2, heq⟩ := interp_eval levels t i hi h1 h2 hne0
  exact ⟨hy1, hy2, by linarith, heq⟩

/-- Concrete instance of claim C9. -/
theorem interpolation_divisor_pos_witness :
    0 < (levelD wLevels 1).proportion_correct
        - (levelD wLevels 0).proportion_correct ∧
    interpolate_threshold wLevels (707 / 1000) =
      (levelD wLevels 0).intensity +
        (707 / 1000 - (levelD wLevels 0).proportion_correct) *
          ((levelD wLevels 1).intensity - (levelD wLevels 0).intensity) /
          ((levelD wLevels 1).proportion_correct
            - (levelD wLevels 0).proportion_correct) := by
  have h := interpolation_divisor_pos wLevels (707 / 1000) 1
    (by norm_num [wLevels, List.findIdx_cons])
    (by norm_num [wLevels]) (by norm_num [wLevels]) (by norm_num)
  exact ⟨h.2.2.1, h.2.2.2⟩

/-- Claim C6: with fewer than 4 distinct intensities, or fewer than 4
levels surviving the 2-trial minimum, `fit_psychophysical_curve` returns
the insufficient-data signal (`none`, all fields absent) for every
backend, i.e. without ever invoking the optimizer. -/
theorem fit_insufficient_data (trials : List (ℚ × Bool)) (method : Method)
    (h : (uniqueSorted trials).length < 4 ∨ (aggregate_fit trials).length < 4) :
    ∀ nb : NumericBackend, fit_psychophysical_curve trials method nb = none := by
  intro nb
  unfold fit_psychophysical_curve
  rcases h with h | h
  · rw [if_pos h]
  · by_cases hu : (uniqueSorted trials).length < 4
    · rw [if_pos hu]
    · rw [if_neg hu, if_pos h]

/-- Concrete instance of claim C6. -/
theorem fit_insufficient_data_witness :
    fit_psychophysical_curve c6Trials .logistic failBackend = none :=
  fit_insufficient_data c6Trials .logistic
    (Or.inl (by norm_num [uniqueSorted, c6Trials, List.dedup,
      List.insertionSort, List.orderedInsert]))
    failBackend

/-- Inversion of a successful logistic fit: the optimizer returned
parameters, and the result record's fields are as computed from them. -/
theorem fit_logistic_some (trials : List (ℚ × Bool)) (nb : NumericBackend)
    (r : FitResult)
    (hfit : fit_psychophysical_curve trials .logistic nb = some r) :
    ∃ a b c d,
      nb.curveFitLogistic (aggregate_fit trials) = some (a, b, c, d) ∧
      r.params = .logisticP a b c d ∧
      r.levels = aggregate_fit trials ∧
      r.threshold_707 = logistic_threshold_707 nb.npLog a b c d
        (npMin (x_data (aggregate_fit trials)))
        (npMax (x_data (aggregate_fit trials))) := by
  unfold fit_psychophysical_curve at hfit
  by_cases h1 : (uniqueSorted trials).length < 4
  · rw [if_pos h1] at hfit
    exact absurd hfit (by simp)
  rw [if_neg h1] at hfit
  by_cases h2 : (aggregate_fit trials).length < 4
  · rw [if_pos h2] at hfit
    exact absurd hfit (by simp)
  rw [if_neg h2] at hfit
  cases hopt : nb.curveFitLogistic (aggregate_fit trials) with
  | none =>
    rw [hopt] at hfit
    exact absurd hfit (by simp)
  | some q =>
    obtain ⟨a, b, c, d⟩ := q
    rw [hopt] at hfit
    simp only [Option.some.injEq] at hfit
    exact ⟨a, b, c, d, rfl, by rw [← hfit], by rw [← hfit], by rw [← hfit]⟩

/-- Inversion of a successful cumulative-normal fit. -/
theorem fit_normal_some (trials : List (ℚ × Bool)) (nb : NumericBackend)
    (r : FitResult)
    (hfit : fit_psychophysical_curve trials .cumulative_normal nb = some r) :
    ∃ mu sigma,
      nb.curveFitNormal (aggregate_fit trials) = some (mu, sigma) ∧
      r.params = .normalP mu sigma ∧
      r.levels = aggregate_fit trials ∧
      r.threshold_707 = some (nb.normPpf (707 / 1000) mu sigma) := by
  unfold fit_psychophysical_curve at hfit
  by_cases h1 : (uniqueSorted trials).length < 4
  · rw [if_pos h1] at hfit
    exact absurd hfit (by simp)
  rw [if_neg h1] at hfit
  by_cases h2 : (aggregate_fit trials).length < 4
  · rw [if_pos h2] at hfit
    exact absurd hfit (by simp)
  rw [if_neg h2] at hfit
  cases hopt : nb.curveFitNormal (aggregate_fit trials) with
  | none =>
    rw [hopt] at hfit
    exact absurd hfit (by simp)
  | some q =>
    obtain ⟨mu, sigma⟩ := q
    rw [hopt] at hfit
    simp only [Option.some.injEq] at hfit
    exact ⟨mu, sigma, rfl, by rw [← hfit], by rw [← hfit], by rw [← hfit]⟩

/-- Claim C2: when the logistic fit succeeds with parameters
`(a, b, c, d)`: if `a < 0.707 < d` and `b > 0`, the threshold is
`c - log((d - a)/(0.707 - a) - 1)/b` unless that value falls outside
`[min intensity, max intensity]`, in which case (and also whenever the
achievability check fails) the threshold is the NaN sentinel. -/
theorem fit_logistic_threshold_gating (trials : List (ℚ × Bool))
    (nb : NumericBackend) (r : FitResult) (a b c d : ℚ)
    (hfit : fit_psychophysical_curve trials .logistic nb = some r)
    (hp : r.params = .logisticP a b c d) :
    ((a < 707 / 1000 ∧ 707 / 1000 < d ∧ 0 < b) →
      ((c - nb.npLog ((d - a) / (707 / 1000 - a) - 1) / b
            < npMin (x_data r.levels) ∨
        npMax (x_data r.levels)
            < c - nb.npLog ((d - a) / (707 / 1000 - a) - 1) / b) →
        r.threshold_707 = none) ∧
      (¬ (c - nb.npLog ((d - a) / (707 / 1000 - a) - 1) / b
            < npMin (x_data r.levels) ∨
          npMax (x_data r.levels)
            < c - nb.npLog ((d - a) / (707 / 1000 - a) - 1) / b) →
        r.threshold_707
          = some (c - nb.npLog ((d - a) / (707 / 1000 - a) - 1) / b))) ∧
    (¬ (a < 707 / 1000 ∧ 707 / 1000 < d ∧ 0 < b) →
      r.threshold_707 = none) := by
  obtain ⟨a', b', c', d', hopt, hp', hlv, hth⟩ :=
    fit_logistic_some trials nb r hfit
  rw [hp] at hp'
  obtain ⟨rfl, rfl, rfl, rfl⟩ :=
    (by simpa [FitParams.logisticP.injEq] using hp' :
      a = a' ∧ b = b' ∧ c = c' ∧ d = d')
  rw [hlv, hth]
  unfold logistic_threshold_707
  refine ⟨fun hcond => ⟨fun hout => ?_, fun hin => ?_⟩, fun hncond => ?_⟩
  · rw [if_pos hcond, if_pos hout]
  · rw [if_pos hcond, if_neg hin]
  · rw [if_neg hncond]

/-- Claim C8: when the cumulative-normal fit succeeds with parameters
`(mu, sigma)`, the threshold is `ppf(0.707, mu, sigma)` unconditionally:
no check against `[min intensity, max intensity]` is applied, unlike the
logistic path. -/
theorem fit_cumulative_normal_no_gate (trials : List (ℚ × Bool))
    (nb : NumericBackend) (r : FitResult) (mu sigma : ℚ)
    (hfit : fit_psychophysical_curve trials .cumulative_normal nb = some r)
    (hp : r.params = .normalP mu sigma) :
    r.threshold_707 = some (nb.normPpf (707 / 1000) mu sigma) := by
  obtain ⟨mu', sigma', hopt, hp', hlv, hth⟩ := fit_normal_some trials nb r hfit
  rw [hp] at hp'
  obtain ⟨rfl, rfl⟩ :=
    (by simpa [FitParams.normalP.injEq] using hp' : mu = mu' ∧ sigma = sigma')
  exact hth

/-- Concrete instance of claim C2: on `wTrials4` with `logBackend` the fit
succeeds and the in-range analytic threshold is returned. -/
theorem fit_logistic_threshold_gating_witness :
    fit_psychophysical_curve wTrials4 .logistic logBackend = some wResLog ∧
    wResLog.threshold_707 = some 2 := by
  have hfit : fit_psychophysical_curve wTrials4 .logistic logBackend
      = some wResLog := by
    norm_num [fit_psychophysical_curve, uniqueSorted, aggregate_fit,
      countAt, correctAt, trialsAt, List.dedup, List.insertionSort,
      List.orderedInsert, x_data, y_data, r_squared_of, npMean,
      logistic_function, logistic_threshold_707, npMin, npMax,
      wTrials4, wLevels4, logBackend, wResLog, List.filter, List.map]
  have h := fit_logistic_threshold_gating wTrials4 logBackend wResLog
    (1 / 2) 1 2 (9 / 10) hfit rfl
  refine ⟨hfit, ?_⟩
  have h2 := (h.1 (by norm_num)).2
    (by norm_num [logBackend, wResLog, wLevels4, x_data, npMin, npMax])
  rw [h2]
  norm_num [logBackend]

/-- Concrete instance of claim C8: the cumulative-normal threshold is
returned even though it is far outside the observed intensity range. -/
theorem fit_cumulative_normal_no_gate_witness :
    fit_psychophysical_curve wTrials4 .cumulative_normal normBackend
      = some wResNorm ∧
    wResNorm.threshold_707 = some 10000 ∧
    npMax (x_data wResNorm.levels) < 10000 := by
  have hfit : fit_psychophysical_curve wTrials4 .cumulative_normal normBackend
      = some wResNorm := by
    norm_num [fit_psychophysical_curve, uniqueSorted, aggregate_fit,
      countAt, correctAt, trialsAt, List.dedup, List.insertionSort,
      List.orderedInsert, x_data, y_data, r_squared_of, npMean,
      cumulative_normal, npMin, npMax,
      wTrials4, wLevels4, normBackend, wResNorm, List.filter, List.map]
  refine ⟨hfit,
    fit_cumulative_normal_no_gate wTrials4 normBackend wResNorm 0 1 hfit rfl, ?_⟩
  norm_num [wResNorm, wLevels4, x_data, npMax]

/-- Claim C7: when the parametric fit fails (insufficient data or
optimizer error), `analyze_dataset` still returns a full result record —
interpolated threshold, total trial count, overall accuracy, stimulus
range and per-session metadata — with the fit parameters and R-squared
absent (`none`, not zero-filled) and the fitted threshold the NaN
sentinel; the failure is never propagated. -/
theorem analyze_dataset_fit_failure (dataset_name : String)
    (sessions : List SessionData) (method : Method) (nb : NumericBackend)
    (hfail : fit_psychophysical_curve (all_trials sessions) method nb = none) :
    analyze_dataset dataset_name sessions method nb =
      { dataset := dataset_name
        n_trials := (all_trials sessions).length
        overall_accuracy := (((all_trials sessions).filter (fun t => t.2)).length : ℚ)
          / ((all_trials sessions).length : ℚ)
        stimulus_range := (npMin ((all_trials sessions).map Prod.fst),
          npMax ((all_trials sessions).map Prod.fst))
        simple_threshold := simple_threshold_estimate (all_trials sessions) (707 / 1000)
        fit_params := none
        r_squared := none
        threshold_707 := none
        levels := aggregate_simple (all_trials sessions)
        session_info := sessions.map session_info_of
        method := method } := by
  unfold analyze_dataset
  rw [hfail]

/-- Concrete instance of claim C7: a dataset too small to fit still yields
a complete result record with the fit fields absent. -/
theorem analyze_dataset_fit_failure_witness :
    (analyze_dataset c7Name c7Sessions .logistic failBackend).fit_params
        = none ∧
    (analyze_dataset c7Name c7Sessions .logistic failBackend).r_squared
        = none ∧
    (analyze_dataset c7Name c7Sessions .logistic failBackend).threshold_707
        = none ∧
    (analyze_dataset c7Name c7Sessions .logistic failBackend).n_trials = 2 ∧
    (analyze_dataset c7Name c7Sessions .logistic failBackend).overall_accuracy
        = 1 / 2 ∧
    (analyze_dataset c7Name c7Sessions .logistic failBackend).stimulus_range
        = (5, 5) ∧
    (analyze_dataset c7Name c7Sessions .logistic failBackend).session_info
        = [{ filename := "2AFC_P_20251020_003915.csv"
             session_datetime := "2025-10-20 00:39:15"
             trials := 2
             accuracy := 1 / 2 }] := by
  have hfail : fit_psychophysical_curve (all_trials c7Sessions) .logistic
      failBackend = none := by
    norm_num [fit_psychophysical_curve, uniqueSorted, all_trials, c7Sessions,
      List.dedup, List.insertionSort, List.orderedInsert]
  have h := analyze_dataset_fit_failure c7Name c7Sessions .logistic
    failBackend hfail
  rw [h]
  refine ⟨rfl, rfl, rfl, rfl, ?_, ?_, ?_⟩
  · norm_num [all_trials, c7Sessions, List.filter]
  · norm_num [all_trials, c7Sessions, npMin, npMax]
  · norm_num [c7Sessions, session_info_of, List.filter]

/-- With at least 3 aggregated levels, `simple_threshold_estimate` returns
the interpolation of its aggregation. -/
theorem simple_threshold_estimate_eq (trials : List (ℚ × Bool)) (t : ℚ)
    (h3 : 3 ≤ (aggregate_simple trials).length) :
    simple_threshold_estimate trials t
      = some (interpolate_threshold (aggregate_simple trials) t) := by
  unfold simple_threshold_estimate
  rw [if_neg (not_lt.2 h3)]

/-- Evaluation of the extrapolation branch when every level is at or above
target. -/
theorem interp_all_above (levels : List PerformanceLevel) (t : ℚ)
    (hall : ∀ l ∈ levels, t ≤ l.proportion_correct) :
    interpolate_threshold levels t =
      npMin (levels.map (·.intensity))
        - npMin (levels.map (·.intensity)) * (1 / 10) := by
  have hb1 : (levels.any fun l => decide (l.proportion_correct < t)) = false := by
    rw [List.any_eq_false]
    intro l hl h
    exact absurd (of_decide_eq_true h) (not_lt.2 (hall l hl))
  unfold interpolate_threshold
  split_ifs with hcond hall2
  · rfl
  · exact absurd (List.all_eq_true.2 fun l hl => decide_eq_true (hall l hl)) hall2
  all_goals exact absurd (by simp [hb1]) hcond

/-- Evaluation of the extrapolation branch when every level is strictly
below target (nonempty level set). -/
theorem interp_all_below (levels : List PerformanceLevel) (t : ℚ)
    (hne : levels ≠ [])
    (hbelow : ∀ l ∈ levels, l.proportion_correct < t) :
    interpolate_threshold levels t =
      npMax (levels.map (·.intensity))
        + npMax (levels.map (·.intensity)) * (1 / 10) := by
  have hb2 : (levels.any fun l => decide (t ≤ l.proportion_correct)) = false := by
    rw [List.any_eq_false]
    intro l hl h
    exact absurd (of_decide_eq_true h) (not_le.2 (hbelow l hl))
  obtain ⟨l0, ls, rfl⟩ := List.exists_cons_of_ne_nil hne
  unfold interpolate_threshold
  split_ifs with hcond hall2
  · exact absurd (of_decide_eq_true (List.all_eq_true.1 hall2 l0 (by simp)))
      (not_le.2 (hbelow l0 (by simp)))
  · rfl
  all_goals exact absurd (by simp [hb2]) hcond

/-- Claim C3 (amended): with at least 3 aggregated levels, if every level
is at or above target the estimate is `min - 0.1*min`, strictly below the
minimum intensity whenever that minimum is positive; if every level is
strictly below target the estimate is `max + 0.1*max`, strictly above the
maximum intensity whenever that maximum is positive.  (For nonpositive
extremes the returned value is not strictly beyond the range: see the
counterexample.) -/
theorem simple_threshold_extrapolates (trials : List (ℚ × Bool)) (t : ℚ)
    (h3 : 3 ≤ (aggregate_simple trials).length) :
    ((∀ l ∈ aggregate_simple trials, t ≤ l.proportion_correct) →
      simple_threshold_estimate trials t
        = some (npMin (x_data (aggregate_simple trials))
            - npMin (x_data (aggregate_simple trials)) * (1 / 10)) ∧
      (0 < npMin (x_data (aggregate_simple trials)) →
        npMin (x_data (aggregate_simple trials))
            - npMin (x_data (aggregate_simple trials)) * (1 / 10)
          < npMin (x_data (aggregate_simple trials)))) ∧
    ((∀ l ∈ aggregate_simple trials, l.proportion_correct < t) →
      simple_threshold_estimate trials t
        = some (npMax (x_data (aggregate_simple trials))
            + npMax (x_data (aggregate_simple trials)) * (1 / 10)) ∧
      (0 < npMax (x_data (aggregate_simple trials)) →
        npMax (x_data (aggregate_simple trials))
          < npMax (x_data (aggregate_simple trials))
            + npMax (x_data (aggregate_simple trials)) * (1 / 10))) := by
  constructor
  · intro hall
    constructor
    · rw [simple_threshold_estimate_eq trials t h3,
        interp_all_above (aggregate_simple trials) t hall]
      rfl
    · intro hpos
      have : 0 < npMin (x_data (aggregate_simple trials)) * (1 / 10) :=
        mul_pos hpos (by norm_num)
      linarith
  · intro hbelow
    have hne : aggregate_simple trials ≠ [] := by
      intro hnil
      rw [hnil] at h3
      simp at h3
    constructor
    · rw [simple_threshold_estimate_eq trials t h3,
        interp_all_below (aggregate_simple trials) t hne hbelow]
      rfl
    · intro hpos
      have : 0 < npMax (x_data (aggregate_simple trials)) * (1 / 10) :=
        mul_pos hpos (by norm_num)
      linarith

/-- Concrete instance of the amended claim C3: three all-correct levels at
intensities 1, 2, 3 give the extrapolated estimate 0.9, strictly below the
minimum intensity 1. -/
theorem simple_threshold_extrapolates_witness :
    simple_threshold_estimate c6Trials (707 / 1000) = some (9 / 10) ∧
    (9 : ℚ) / 10 < 1 := by
  have haggr : aggregate_simple c6Trials = [⟨1, 1, 2⟩, ⟨2, 1, 2⟩, ⟨3, 1, 2⟩] := by
    norm_num [aggregate_simple, uniqueSorted, c6Trials, countAt, correctAt,
      trialsAt, List.dedup, List.insertionSort, List.orderedInsert,
      List.filter, List.map]
  have hmin : npMin (x_data (aggregate_simple c6Trials)) = 1 := by
    rw [haggr]
    norm_num [x_data, npMin, List.min?]
  have h := (simple_threshold_extrapolates c6Trials (707 / 1000)
    (by rw [haggr]; norm_num)).1 (by rw [haggr]; norm_num)
  obtain ⟨heq, -⟩ := h
  rw [hmin] at heq
  constructor
  · rw [heq]
    norm_num
  · norm_num

/-- Claim C3 counterexample: an all-above-target level set with minimum
intensity 0 satisfies every hypothesis of the claim, yet the returned
estimate equals the minimum intensity instead of lying strictly below it —
the claimed strictness fails for nonpositive intensities. -/
theorem c3_counterexample :
    simple_threshold_estimate c3Trials (707 / 1000) = some 0 ∧
    (∀ l ∈ aggregate_simple c3Trials, (707 : ℚ) / 1000 ≤ l.proportion_correct) ∧
    3 ≤ (aggregate_simple c3Trials).length ∧
    npMin (x_data (aggregate_simple c3Trials)) = 0 ∧
    ¬ (0 : ℚ) < npMin (x_data (aggregate_simple c3Trials)) := by
  have haggr : aggregate_simple c3Trials = [⟨0, 1, 2⟩, ⟨1, 1, 2⟩, ⟨2, 1, 2⟩] := by
    norm_num [aggregate_simple, uniqueSorted, c3Trials, countAt, correctAt,
      trialsAt, List.dedup, List.insertionSort, List.orderedInsert,
      List.filter, List.map]
  have hmin : npMin (x_data (aggregate_simple c3Trials)) = 0 := by
    rw [haggr]
    norm_num [x_data, npMin, List.min?]
  refine ⟨?_, ?_, ?_, hmin, by rw [hmin]; exact lt_irrefl 0⟩
  · rw [simple_threshold_estimate_eq c3Trials (707 / 1000) (by rw [haggr]; norm_num),
      interp_all_above (aggregate_simple c3Trials) (707 / 1000)
        (by rw [haggr]; norm_num)]
    rw [haggr]
    norm_num [npMin, List.min?]
  · rw [haggr]
    norm_num
  · rw [haggr]
    norm_num

/-- Claim C4 counterexample: on the scenario levels with target 0.707 the
interpolated threshold is 1457/3 = 485.67, which does not lie strictly
between 500 and 550 — the first at-or-above-target level is (500, 0.75)
(since 0.75 is at or above 0.707), not (550, 0.9). -/
theorem c4_counterexample :
    interpolate_threshold c4Levels (707 / 1000) = 1457 / 3 ∧
    ¬ (500 < (1457 : ℚ) / 3 ∧ (1457 : ℚ) / 3 < 550) := by
  constructor
  · norm_num [interpolate_threshold, c4Levels, List.findIdx_cons, levelD,
      npMin, npMax, List.min?, List.max?, List.getD_cons_zero,
      List.getD_cons_succ]
  · norm_num

/-- Claim C4 (amended): on the scenario levels with target 0.707 the
interpolated threshold is 1457/3, strictly between the bracketing
intensities 450 and 500. -/
theorem c4_amended :
    interpolate_threshold c4Levels (707 / 1000) = 1457 / 3 ∧
    450 < (1457 : ℚ) / 3 ∧ (1457 : ℚ) / 3 < 500 := by
  constructor
  · norm_num [interpolate_threshold, c4Levels, List.findIdx_cons, levelD,
      npMin, npMax, List.min?, List.max?, List.getD_cons_zero,
      List.getD_cons_succ]
  · norm_num

/-- Concrete instance of claim C10. -/
theorem aggregate_fit_eq_aggregate_simple_witness :
    aggregate_fit c3Trials = aggregate_simple c3Trials :=
  aggregate_fit_eq_aggregate_simple c3Trials

/-- Concrete instance of claim C5: the aggregated levels of `c3Trials` are
strictly ascending in intensity. -/
theorem aggregate_invariants_witness :
    (aggregate_simple c3Trials).Pairwise (fun a b => a.intensity < b.intensity) :=
  (aggregate_invariants c3Trials).1

end VR2AFC
